import Mathlib

/-!
# Verification of the `metrics_generator` synthetic metrics server

Shallow embedding of `src/metrics_generator/src/main.rs` (Rust).

Modelling conventions:

* The random source `rand::thread_rng()` is modelled as an explicit `Rng`
  state carrying two unbounded streams of raw draws (one for integer draws,
  one for floating-point draws) together with cursors into them.
  `rng.gen_range(lo..hi)` is modelled by `genRangeNat` / `genRangeQ`:
  the result is always an element of `[lo, hi)` derived from the next raw
  draw (every element of the range is reachable by a suitable raw draw,
  which is how "uniformly drawn" is embedded), and the call returns `none`
  when the range is empty — `rand` panics on an empty range.
* Rust `f64` values produced by the generators are modelled as exact
  rationals `ℚ`: the properties at issue are about which samples are drawn
  and summed, not about rounding.
* Rust machine integers are modelled as `Nat` with an explicit `% 2^32`
  where a `u32` computation can overflow (`core_count * 2`); this is the
  release-mode wrapping semantics.
* A Rust panic (`unwrap` failure, slice-index out of bounds, empty
  `gen_range` range) is modelled as `none` : the function does not return.
-/

/-- The model of `rand::thread_rng()`: two streams of raw draws and cursors.
`natDraws` feeds integer `gen_range` calls, `qDraws` feeds floating-point
`gen_range` calls. -/
structure Rng where
  natDraws : Nat → Nat
  qDraws : Nat → ℚ
  natIdx : Nat
  qIdx : Nat

/-- `rng.gen_range(lo..hi)` on integers: `none` on an empty range (rand
panics), otherwise an element of `[lo, hi)` determined by the next raw draw. -/
def genRangeNat (lo hi : Nat) (r : Rng) : Option (Nat × Rng) :=
  if lo < hi then
    some (lo + r.natDraws r.natIdx % (hi - lo),
      { r with natIdx := r.natIdx + 1 })
  else none

/-- Interpretation of a raw rational draw as a position in the unit
interval `[0, 1)`: draws outside it are read as `0`, so that every position
is reachable and the result is always in `[0, 1)`. -/
def unitDraw (d : ℚ) : ℚ :=
  if 0 ≤ d ∧ d < 1 then d else 0

/-- `rng.gen_range(lo..hi)` on floats (modelled as `ℚ`): `none` on an empty
range (rand panics), otherwise `lo + unitDraw(draw) * (hi - lo) ∈ [lo, hi)`. -/
def genRangeQ (lo hi : ℚ) (r : Rng) : Option (ℚ × Rng) :=
  if lo < hi then
    some (lo + unitDraw (r.qDraws r.qIdx) * (hi - lo),
      { r with qIdx := r.qIdx + 1 })
  else none

/-- `const TOTAL_BYTES: u64 = 4294967296; // 4GB` -/
def TOTAL_BYTES : Nat := 4294967296

/-- `const CORE_COUNT: u32 = 8;` -/
def CORE_COUNT : Nat := 8

/-- `const PROM_NAMESPACE: &str = "my_server_instr";` -/
def PROM_NAMESPACE : String := "my_server_instr"

/-- `const UNSUPPORTED_RESPONSE: &str = "HTTP/1.1 405 Method Not Allowed\r\n\r\n";` -/
def UNSUPPORTED_RESPONSE : String := "HTTP/1.1 405 Method Not Allowed\r\n\r\n"

/-- `const NOT_FOUND_RESPONSE: &str = "HTTP/1.1 404 Not Found\r\n\r\n";` -/
def NOT_FOUND_RESPONSE : String := "HTTP/1.1 404 Not Found\r\n\r\n"

/-- `const BAD_REQUEST_RESPONSE: &str = "HTTP/1.1 400 Bad Request\r\n\r\n";` -/
def BAD_REQUEST_RESPONSE : String := "HTTP/1.1 400 Bad Request\r\n\r\n"

/-- `const OK_RESPONSE_LINE: &str = "HTTP/1.1 200 Ok";` -/
def OK_RESPONSE_LINE : String := "HTTP/1.1 200 Ok"

/-- `struct MetricsCpu { load_1m: f64, load_5m: f64, load_15m: f64, thread_count: u32 }` -/
structure MetricsCpu where
  load_1m : ℚ
  load_5m : ℚ
  load_15m : ℚ
  thread_count : Nat
deriving DecidableEq

/-- `struct MetricsMem { used_bytes: u64, total_bytes: u64 }` -/
structure MetricsMem where
  used_bytes : Nat
  total_bytes : Nat
deriving DecidableEq

/-- `fn gen_health_status() -> bool { rng.gen_range(0..99) >= 10 }` -/
def gen_health_status (rng : Rng) : Option (Bool × Rng) :=
  match genRangeNat 0 99 rng with
  | none => none
  | some (d, r) => some (decide (10 ≤ d), r)

/-- `fn gen_metrics_mem(total_bytes: u64) -> MetricsMem`: draws `used_bytes`
from `total_bytes / 2 .. total_bytes` and returns it together with the
constant `TOTAL_BYTES` (the code sets `total_bytes: TOTAL_BYTES`, not the
input parameter). -/
def gen_metrics_mem (total_bytes : Nat) (rng : Rng) : Option (MetricsMem × Rng) :=
  match genRangeNat (total_bytes / 2) total_bytes rng with
  | none => none
  | some (u, r) => some ({ used_bytes := u, total_bytes := TOTAL_BYTES }, r)

/-- One iteration of the sampling loop in `gen_metrics_cpu`: a draw from
`0..99`; if it is `>= 10` a sample from `[0, core_count)`, otherwise a
"spike" sample from `[core_count, core_count * 2)` where the `u32`
multiplication wraps modulo `2^32`. -/
def gen_cpu_sample (core_count : Nat) (rng : Rng) : Option (ℚ × Rng) :=
  match genRangeNat 0 99 rng with
  | none => none
  | some (d, r) =>
    if 10 ≤ d then
      genRangeQ 0 (core_count : ℚ) r
    else
      genRangeQ (core_count : ℚ) ((core_count * 2) % 2 ^ 32 : Nat) r

/-- The `for _ in 0..15` loop of `gen_metrics_cpu`, generalised over the
iteration count: pushes samples in order (oldest first). -/
def gen_cpu_counts (core_count : Nat) : Nat → Rng → Option (List ℚ × Rng)
  | 0, rng => some ([], rng)
  | n + 1, rng =>
    match gen_cpu_sample core_count rng with
    | none => none
    | some (c, r1) =>
      match gen_cpu_counts core_count n r1 with
      | none => none
      | some (cs, r2) => some (c :: cs, r2)

/-- `fn gen_metrics_cpu(core_count: u32) -> MetricsCpu`: 15 samples, then
`load_1m = counts[14]`, `load_5m = counts[9..14].sum()` (indices 9–13),
`load_15m = counts.sum()`, `thread_count = core_count * 2` (wrapping `u32`). -/
def gen_metrics_cpu (core_count : Nat) (rng : Rng) : Option (MetricsCpu × Rng) :=
  match gen_cpu_counts core_count 15 rng with
  | none => none
  | some (counts, r) =>
    match counts[14]? with
    | none => none
    | some load_1m =>
      some ({ load_1m := load_1m,
              load_5m := ((counts.drop 9).take 5).sum,
              load_15m := counts.sum,
              thread_count := (core_count * 2) % 2 ^ 32 }, r)

/-- `struct MetricsRoot { cpu: MetricsCpu, memory: MetricsMem }` -/
structure MetricsRoot where
  cpu : MetricsCpu
  memory : MetricsMem
deriving DecidableEq

/-- Rust's `str::split(' ')` on a list of characters: splits at every space,
keeping empty pieces, so the result is always non-empty. The first argument
accumulates the current piece in reverse. -/
def splitSpaceAux : List Char → List Char → List (List Char)
  | acc, [] => [acc.reverse]
  | acc, c :: rest =>
    if c = ' ' then acc.reverse :: splitSpaceAux [] rest
    else splitSpaceAux (c :: acc) rest

/-- `req_line.split(' ').collect::<Vec<&str>>()`. -/
def splitSpace (s : String) : List String :=
  (splitSpaceAux [] s.toList).map List.asString

/-- The process-wide mutable metric instruments: `METRIC_HEALTH` (an `i64`
gauge, default `0`), `METRIC_CPU` (a `Family` of `f64` gauges keyed by the
`bucket` label, default empty), `METRIC_MEM_TOTAL` and `METRIC_MEM_USED`
(`f64` gauges, default `0`). -/
structure ServerState where
  healthGauge : Int
  cpuLoad : List (String × ℚ)
  memTotal : ℚ
  memUsed : ℚ

/-- The initial (lazy-static default) values of the metric instruments. -/
def initState : ServerState :=
  { healthGauge := 0, cpuLoad := [], memTotal := 0, memUsed := 0 }

/-- `METRIC_CPU.get_or_create(&CpuLabels { bucket }).set(v)`: replace the
value held for the label if present, otherwise create the labelled gauge. -/
def famSet (fam : List (String × ℚ)) (bucket : String) (v : ℚ) : List (String × ℚ) :=
  match fam with
  | [] => [(bucket, v)]
  | (k, w) :: rest =>
    if k = bucket then (k, v) :: rest else (k, w) :: famSet rest bucket v

/-- `fn populate_metrics()`: one health draw sets the health gauge to `1` or
`0`; one CPU snapshot sets the three `bucket`-labelled gauges; one memory
snapshot sets the used/total gauges (the `u64` fields are cast to `f64`). -/
def populate_metrics (s : ServerState) (rng : Rng) : Option (ServerState × Rng) :=
  match gen_health_status rng with
  | none => none
  | some (b, r1) =>
    let s1 := { s with healthGauge := if b then 1 else 0 }
    match gen_metrics_cpu CORE_COUNT r1 with
    | none => none
    | some (cpu, r2) =>
      let fam3 :=
        famSet (famSet (famSet s1.cpuLoad "1m" cpu.load_1m) "5m" cpu.load_5m)
          "15m" cpu.load_15m
      let s2 := { s1 with cpuLoad := fam3 }
      match gen_metrics_mem TOTAL_BYTES r2 with
      | none => none
      | some (mem, r3) =>
        some ({ s2 with memUsed := (mem.used_bytes : ℚ),
                        memTotal := (mem.total_bytes : ℚ) }, r3)

/-- `fn handle_healthz(stream)`: one health draw; on `true` write the literal
`"HTTP/1.1 200 Ok\r\n\r\n"`, on `false` write the empty byte sequence. -/
def handle_healthz (s : ServerState) (rng : Rng) : Option (String × ServerState × Rng) :=
  match gen_health_status rng with
  | none => none
  | some (b, r1) =>
    if b then some ("HTTP/1.1 200 Ok\r\n\r\n", s, r1)
    else some ("", s, r1)

/-- `fn handle_stats(stream)`: fresh CPU and memory snapshots, serialised by
the external `serde_json` encoder (a parameter `jsonEnc`, black-box per the
spec), framed with `Content-Length`. -/
def handle_stats (jsonEnc : MetricsRoot → String) (s : ServerState) (rng : Rng) :
    Option (String × ServerState × Rng) :=
  match gen_metrics_cpu CORE_COUNT rng with
  | none => none
  | some (cpu, r1) =>
    match gen_metrics_mem TOTAL_BYTES r1 with
    | none => none
    | some (mem, r2) =>
      let payload := jsonEnc { cpu := cpu, memory := mem }
      some (OK_RESPONSE_LINE ++ "\r\nContent-Length: " ++ toString payload.length
        ++ "\r\n\r\n" ++ payload, s, r2)

/-- `fn handle_metrics(stream)`: `populate_metrics()` then the external
OpenMetrics text encoder (a parameter `enc`, black-box per the spec), framed
with `Content-Length`. -/
def handle_metrics (enc : ServerState → String) (s : ServerState) (rng : Rng) :
    Option (String × ServerState × Rng) :=
  match populate_metrics s rng with
  | none => none
  | some (s1, r1) =>
    let buffer := enc s1
    some (OK_RESPONSE_LINE ++ "\r\nContent-Length: " ++ toString buffer.length
      ++ "\r\n\r\n" ++ buffer, s1, r1)

/-- `fn handle_connection(stream)`: `request` is the list of non-empty header
lines read from the stream. An empty list gets `400`; otherwise the first
line is split on single spaces, `req_split[0]` is matched against `"GET"`
(anything else gets `405`), and `req_split[1]` — a panic (`none`) when the
split produced fewer than two tokens — selects the handler, defaulting
to `404`. -/
def handle_connection (jsonEnc : MetricsRoot → String) (enc : ServerState → String)
    (request : List String) (s : ServerState) (rng : Rng) :
    Option (String × ServerState × Rng) :=
  match request with
  | [] => some (BAD_REQUEST_RESPONSE, s, rng)
  | req_line :: _ =>
    match splitSpace req_line with
    | [] => none
    | m :: rest =>
      if m = "GET" then
        match rest with
        | [] => none
        | p :: _ =>
          if p = "/healthz" then handle_healthz s rng
          else if p = "/stats" then handle_stats jsonEnc s rng
          else if p = "/metrics" then handle_metrics enc s rng
          else some (NOT_FOUND_RESPONSE, s, rng)
      else some (UNSUPPORTED_RESPONSE, s, rng)

/-- The registration error. Modelled from the spec: the registry type itself
comes from the external `prometheus_client` crate (not under `src/`); the
spec specifies that registering an already-registered metric name is a
registration conflict, fatal at startup. -/
inductive RegError where
  | registrationConflict
deriving DecidableEq

/-- Modelled from the spec: the registry is a mapping from instrument name
to instrument; the instrument handles are external, so an entry is kept as
its (name, help) pair in registration order. The `prometheus_client`
`Registry` type itself is not part of this repository's sources. -/
structure PromRegistry where
  entries : List (String × String)
deriving DecidableEq

/-- Modelled from the spec: `register(name, help, metric)` adds an entry;
registering the same name twice fails with a registration-conflict error. -/
def PromRegistry.register (reg : PromRegistry) (name help : String) :
    Except RegError PromRegistry :=
  if (reg.entries.map Prod.fst).contains name then
    Except.error RegError.registrationConflict
  else
    Except.ok ⟨reg.entries ++ [(name, help)]⟩

/-- `fn register_prom_metrics()`: registers the four instruments, in source
order, into the initially empty registry. -/
def register_prom_metrics : Except RegError PromRegistry :=
  match PromRegistry.register ⟨[]⟩ (PROM_NAMESPACE ++ "_health") "server health" with
  | Except.error e => Except.error e
  | Except.ok r1 =>
    match r1.register (PROM_NAMESPACE ++ "_cpu_load") "CPU load average" with
    | Except.error e => Except.error e
    | Except.ok r2 =>
      match r2.register (PROM_NAMESPACE ++ "_memory_bytes_total") "total memory in bytes" with
      | Except.error e => Except.error e
      | Except.ok r3 =>
        r3.register (PROM_NAMESPACE ++ "_memory_bytes_used") "used memory in bytes"

/-- `fn main()` up to the point where serving begins: the registration step
runs first, and serving starts (with the default instrument values) only if
it succeeded — a registration conflict is fatal before the listener binds. -/
def main_startup : Except RegError (PromRegistry × ServerState) :=
  match register_prom_metrics with
  | Except.error e => Except.error e
  | Except.ok reg => Except.ok (reg, initState)

/-- A random source whose integer draws are all `n` and whose rational draws
are all `q` (used to instantiate theorems at concrete inputs). -/
def rngConst (n : Nat) (q : ℚ) : Rng :=
  ⟨fun _ => n, fun _ => q, 0, 0⟩

/-- A random source driving `gen_metrics_cpu 1` to the sample list
`[0, …, 0, 1/2]`: every branch draw picks the normal branch and only the
15th rational draw is non-zero. -/
def rngOneHalfLast : Rng :=
  ⟨fun _ => 50, fun i => if i = 14 then 1 / 2 else 0, 0, 0⟩

section RangeLemmas

lemma unitDraw_nonneg (d : ℚ) : 0 ≤ unitDraw d := by
  unfold unitDraw
  split
  · rename_i hd
    exact hd.1
  · exact le_refl 0

lemma unitDraw_lt_one (d : ℚ) : unitDraw d < 1 := by
  unfold unitDraw
  split
  · rename_i hd
    exact hd.2
  · exact one_pos

lemma genRangeNat_eq (r : Rng) {lo hi : Nat} (h : lo < hi) :
    genRangeNat lo hi r =
      some (lo + r.natDraws r.natIdx % (hi - lo), { r with natIdx := r.natIdx + 1 }) := by
  unfold genRangeNat
  rw [if_pos h]

lemma genRangeNat_bounds {lo hi v : Nat} {r r' : Rng}
    (h : genRangeNat lo hi r = some (v, r')) : lo ≤ v ∧ v < hi := by
  unfold genRangeNat at h
  split at h
  · rename_i hlt
    simp only [Option.some.injEq, Prod.mk.injEq] at h
    have hmod : r.natDraws r.natIdx % (hi - lo) < hi - lo := Nat.mod_lt _ (by omega)
    omega
  · simp at h

lemma genRangeQ_eq (r : Rng) {lo hi : ℚ} (h : lo < hi) :
    genRangeQ lo hi r =
      some (lo + unitDraw (r.qDraws r.qIdx) * (hi - lo), { r with qIdx := r.qIdx + 1 }) := by
  unfold genRangeQ
  rw [if_pos h]

lemma genRangeQ_none (r : Rng) {lo hi : ℚ} (h : ¬ lo < hi) :
    genRangeQ lo hi r = none := by
  unfold genRangeQ
  rw [if_neg h]

lemma genRangeQ_bounds {lo hi v : ℚ} {r r' : Rng}
    (h : genRangeQ lo hi r = some (v, r')) : lo ≤ v ∧ v < hi := by
  unfold genRangeQ at h
  split at h
  · rename_i hlt
    simp only [Option.some.injEq, Prod.mk.injEq] at h
    obtain ⟨hv, -⟩ := h
    subst hv
    constructor
    · have h1 := mul_nonneg (unitDraw_nonneg (r.qDraws r.qIdx))
        (by linarith : (0:ℚ) ≤ hi - lo)
      linarith
    · have h2 := (mul_lt_mul_of_pos_right (unitDraw_lt_one (r.qDraws r.qIdx))
        (by linarith : (0:ℚ) < hi - lo))
      rw [one_mul] at h2
      linarith
  · simp at h

end RangeLemmas

section CpuLemmas

lemma gen_cpu_sample_nonneg {C : Nat} {v : ℚ} {r r' : Rng}
    (h : gen_cpu_sample C r = some (v, r')) : 0 ≤ v := by
  unfold gen_cpu_sample at h
  rw [genRangeNat_eq r (by norm_num)] at h
  simp only at h
  split at h
  · exact (genRangeQ_bounds h).1
  · exact le_trans (Nat.cast_nonneg C) (genRangeQ_bounds h).1

lemma gen_cpu_sample_isSome {C : Nat} (h1 : 1 ≤ C) (h2 : C < 2 ^ 31) (r : Rng) :
    ∃ v r', gen_cpu_sample C r = some (v, r') := by
  unfold gen_cpu_sample
  rw [genRangeNat_eq r (by norm_num)]
  simp only
  have hmod : (C * 2) % 2 ^ 32 = C * 2 := Nat.mod_eq_of_lt (by omega)
  split
  · exact ⟨_, _, genRangeQ_eq _ (by exact_mod_cast h1)⟩
  · refine ⟨_, _, genRangeQ_eq _ ?_⟩
    rw [hmod]
    exact_mod_cast (by omega : C < C * 2)

lemma gen_cpu_counts_inv {C n : Nat} {l : List ℚ} {r r' : Rng}
    (h : gen_cpu_counts C n r = some (l, r')) : l.length = n ∧ ∀ x ∈ l, 0 ≤ x := by
  induction n generalizing l r r' with
  | zero =>
    unfold gen_cpu_counts at h
    simp only [Option.some.injEq, Prod.mk.injEq] at h
    obtain ⟨hl, -⟩ := h
    simp [← hl]
  | succ n ih =>
    unfold gen_cpu_counts at h
    cases hs : gen_cpu_sample C r with
    | none => rw [hs] at h; simp at h
    | some p =>
      obtain ⟨c, r1⟩ := p
      rw [hs] at h
      simp only at h
      cases hc : gen_cpu_counts C n r1 with
      | none => rw [hc] at h; simp at h
      | some q =>
        obtain ⟨cs, r2⟩ := q
        rw [hc] at h
        simp only [Option.some.injEq, Prod.mk.injEq] at h
        obtain ⟨hl, -⟩ := h
        obtain ⟨hlen, hpos⟩ := ih hc
        subst hl
        refine ⟨by simp [hlen], ?_⟩
        intro x hx
        rcases List.mem_cons.mp hx with hx | hx
        · subst hx
          exact gen_cpu_sample_nonneg hs
        · exact hpos x hx

lemma gen_cpu_counts_isSome {C : Nat} (h1 : 1 ≤ C) (h2 : C < 2 ^ 31) :
    ∀ (n : Nat) (r : Rng), ∃ l r', gen_cpu_counts C n r = some (l, r') := by
  intro n
  induction n with
  | zero => exact fun r => ⟨[], r, rfl⟩
  | succ n ih =>
    intro r
    obtain ⟨v, r1, hs⟩ := gen_cpu_sample_isSome h1 h2 r
    obtain ⟨l, r2, hc⟩ := ih r1
    refine ⟨v :: l, r2, ?_⟩
    unfold gen_cpu_counts
    rw [hs]
    simp only
    rw [hc]

end CpuLemmas

section CpuSumLemmas

lemma window_sum_bounds {l : List ℚ} (h : ∀ x ∈ l, 0 ≤ x) :
    0 ≤ ((l.drop 9).take 5).sum ∧ ((l.drop 9).take 5).sum ≤ l.sum := by
  have hnn : ∀ sub : List ℚ, (∀ x ∈ sub, x ∈ l) → 0 ≤ sub.sum := by
    intro sub hsub
    exact List.sum_nonneg (fun x hx => h x (hsub x hx))
  have h1 : 0 ≤ ((l.drop 9).take 5).sum :=
    hnn _ (fun x hx => List.mem_of_mem_drop (List.mem_of_mem_take hx))
  refine ⟨h1, ?_⟩
  have hsplit : l.sum = (l.take 9).sum + (l.drop 9).sum := by
    conv_lhs => rw [← List.take_append_drop 9 l]
    exact List.sum_append
  have hsplit2 : (l.drop 9).sum = ((l.drop 9).take 5).sum + ((l.drop 9).drop 5).sum := by
    conv_lhs => rw [← List.take_append_drop 5 (l.drop 9)]
    exact List.sum_append
  have h2 : 0 ≤ (l.take 9).sum := hnn _ (fun x hx => List.mem_of_mem_take hx)
  have h3 : 0 ≤ ((l.drop 9).drop 5).sum :=
    hnn _ (fun x hx => List.mem_of_mem_drop (List.mem_of_mem_drop hx))
  linarith

lemma gen_metrics_cpu_inv {C : Nat} {rng : Rng} {m : MetricsCpu} {r' : Rng}
    (h : gen_metrics_cpu C rng = some (m, r')) :
    ∃ counts, gen_cpu_counts C 15 rng = some (counts, r') ∧
      counts.length = 15 ∧
      counts[14]? = some m.load_1m ∧
      m.load_5m = ((counts.drop 9).take 5).sum ∧
      m.load_15m = counts.sum ∧
      m.thread_count = (C * 2) % 2 ^ 32 := by
  unfold gen_metrics_cpu at h
  cases hc : gen_cpu_counts C 15 rng with
  | none => rw [hc] at h; simp at h
  | some p =>
    obtain ⟨counts, r1⟩ := p
    rw [hc] at h
    simp only at h
    cases h14 : counts[14]? with
    | none => rw [h14] at h; simp at h
    | some a =>
      rw [h14] at h
      simp only [Option.some.injEq, Prod.mk.injEq] at h
      obtain ⟨hm, hr⟩ := h
      subst hr
      refine ⟨counts, rfl, (gen_cpu_counts_inv hc).1, ?_, ?_, ?_, ?_⟩
      · rw [h14, ← hm]
      · rw [← hm]
      · rw [← hm]
      · rw [← hm]

end CpuSumLemmas

section StateLemmas

lemma gen_health_status_eq (rng : Rng) :
    gen_health_status rng =
      some (decide (10 ≤ rng.natDraws rng.natIdx % 99), { rng with natIdx := rng.natIdx + 1 }) := by
  unfold gen_health_status
  rw [genRangeNat_eq rng (by norm_num)]
  simp

lemma populate_metrics_healthGauge {s : ServerState} {rng : Rng} {b : Bool} {r1 : Rng}
    {s' : ServerState} {r' : Rng}
    (hb : gen_health_status rng = some (b, r1))
    (h : populate_metrics s rng = some (s', r')) :
    s'.healthGauge = if b then 1 else 0 := by
  unfold populate_metrics at h
  rw [hb] at h
  simp only at h
  cases hcpu : gen_metrics_cpu CORE_COUNT r1 with
  | none => rw [hcpu] at h; simp at h
  | some p =>
    obtain ⟨cpu, r2⟩ := p
    rw [hcpu] at h
    simp only at h
    cases hmem : gen_metrics_mem TOTAL_BYTES r2 with
    | none => rw [hmem] at h; simp at h
    | some q =>
      obtain ⟨mem, r3⟩ := q
      rw [hmem] at h
      simp only [Option.some.injEq, Prod.mk.injEq] at h
      obtain ⟨hs, -⟩ := h
      rw [← hs]

lemma populate_metrics_healthGauge01 {s : ServerState} {rng : Rng}
    {s' : ServerState} {r' : Rng}
    (h : populate_metrics s rng = some (s', r')) :
    s'.healthGauge = 0 ∨ s'.healthGauge = 1 := by
  have hb := gen_health_status_eq rng
  have := populate_metrics_healthGauge hb h
  rw [this]
  cases hd : decide (10 ≤ rng.natDraws rng.natIdx % 99) with
  | false => left; rfl
  | true => right; rfl

lemma handle_healthz_state {s : ServerState} {rng : Rng}
    {out : String × ServerState × Rng}
    (h : handle_healthz s rng = some out) : out.2.1 = s := by
  unfold handle_healthz at h
  rw [gen_health_status_eq rng] at h
  simp only at h
  split at h
  · simp only [Option.some.injEq] at h
    rw [← h]
  · simp only [Option.some.injEq] at h
    rw [← h]

lemma handle_stats_state {jsonEnc : MetricsRoot → String} {s : ServerState} {rng : Rng}
    {out : String × ServerState × Rng}
    (h : handle_stats jsonEnc s rng = some out) : out.2.1 = s := by
  unfold handle_stats at h
  cases hcpu : gen_metrics_cpu CORE_COUNT rng with
  | none => rw [hcpu] at h; simp at h
  | some p =>
    obtain ⟨cpu, r1⟩ := p
    rw [hcpu] at h
    simp only at h
    cases hmem : gen_metrics_mem TOTAL_BYTES r1 with
    | none => rw [hmem] at h; simp at h
    | some q =>
      obtain ⟨mem, r2⟩ := q
      rw [hmem] at h
      simp only [Option.some.injEq] at h
      rw [← h]

lemma handle_metrics_healthGauge {enc : ServerState → String} {s : ServerState} {rng : Rng}
    {out : String × ServerState × Rng}
    (h : handle_metrics enc s rng = some out) :
    out.2.1.healthGauge = 0 ∨ out.2.1.healthGauge = 1 := by
  unfold handle_metrics at h
  cases hp : populate_metrics s rng with
  | none => rw [hp] at h; simp at h
  | some p =>
    obtain ⟨s1, r1⟩ := p
    rw [hp] at h
    simp only [Option.some.injEq] at h
    rw [← h]
    exact populate_metrics_healthGauge01 hp

lemma handle_connection_healthGauge {jsonEnc : MetricsRoot → String}
    {enc : ServerState → String} {req : List String} {s : ServerState} {rng : Rng}
    {out : String × ServerState × Rng}
    (h : handle_connection jsonEnc enc req s rng = some out) :
    out.2.1.healthGauge = s.healthGauge ∨
      out.2.1.healthGauge = 0 ∨ out.2.1.healthGauge = 1 := by
  unfold handle_connection at h
  cases req with
  | nil =>
    simp only [Option.some.injEq] at h
    left; rw [← h]
  | cons req_line rest =>
    simp only at h
    cases hsp : splitSpace req_line with
    | nil => rw [hsp] at h; simp at h
    | cons m ps =>
      rw [hsp] at h
      simp only at h
      split at h
      · cases ps with
        | nil => simp at h
        | cons p ps2 =>
          simp only at h
          split at h
          · left; rw [handle_healthz_state h]
          · split at h
            · left; rw [handle_stats_state h]
            · split at h
              · right; exact handle_metrics_healthGauge h
              · simp only [Option.some.injEq] at h
                left; rw [← h]
      · simp only [Option.some.injEq] at h
        left; rw [← h]

end StateLemmas

/-- The sample list produced by `gen_metrics_cpu 1 rngOneHalfLast`. -/
def cListC1 : List ℚ := [0, 0, 0, 0, 0, 0, 0, 0, 0, 0, 0, 0, 0, 0, 1 / 2]

/-- The random-source state after the 15 samples of `rngOneHalfLast`. -/
def rngC1after : Rng := ⟨fun _ => 50, fun i => if i = 14 then 1 / 2 else 0, 15, 15⟩

/-- The snapshot produced by `gen_metrics_cpu 1 rngOneHalfLast`. -/
def mC1 : MetricsCpu := ⟨1 / 2, 0, 1 / 2, 2⟩

/-- C1 is false on the code: for `coreCount = 1` and a draw whose 15
samples are `[0,…,0,1/2]`, the sum of the 5 most recent samples (samples
11–15, indices 10–14) is `1/2`, but the returned `load_5m` is `0` — the
code sums `counts[9..14]`, which excludes the most recent sample. -/
theorem c1_counterexample :
    (gen_cpu_counts 1 15 rngOneHalfLast).map (fun p => ((p.1.drop 10).take 5).sum) = some (1 / 2) ∧
    (gen_metrics_cpu 1 rngOneHalfLast).map (fun p => p.1.load_5m) = some 0 ∧
    ((1 : ℚ) / 2) ≠ 0 := by
  refine ⟨?_, ?_, by norm_num⟩
  · norm_num [gen_cpu_counts, gen_cpu_sample, genRangeNat, genRangeQ, unitDraw, rngOneHalfLast]
  · norm_num [gen_metrics_cpu, gen_cpu_counts, gen_cpu_sample, genRangeNat, genRangeQ, unitDraw,
      rngOneHalfLast]

/-- C1 (amended): for every invocation of `gen_metrics_cpu`, the returned
`load_5m` equals the sum of samples 10–14 in oldest-to-newest order
(slice indices 9–13 of the 15 generated samples), which excludes the most
recent sample. -/
theorem c1_amended_load5m :
    ∀ (C : Nat) (rng : Rng) (counts : List ℚ) (r1 : Rng) (m : MetricsCpu) (r' : Rng),
    gen_cpu_counts C 15 rng = some (counts, r1) →
    gen_metrics_cpu C rng = some (m, r') →
    m.load_5m = ((counts.drop 9).take 5).sum := by
  intro C rng counts r1 m r' hc hm
  obtain ⟨counts', hc', -, -, h5, -, -⟩ := gen_metrics_cpu_inv hm
  rw [hc] at hc'
  simp only [Option.some.injEq, Prod.mk.injEq] at hc'
  rw [h5, hc'.1]

/-- C1 (amended) witness at `coreCount = 1` and the `rngOneHalfLast` draw. -/
theorem c1_amended_witness : mC1.load_5m = ((cListC1.drop 9).take 5).sum :=
  c1_amended_load5m 1 rngOneHalfLast cListC1 rngC1after mC1 rngC1after
    (by norm_num [gen_cpu_counts, gen_cpu_sample, genRangeNat, genRangeQ, unitDraw,
      rngOneHalfLast, cListC1, rngC1after])
    (by norm_num [gen_metrics_cpu, gen_cpu_counts, gen_cpu_sample, genRangeNat, genRangeQ,
      unitDraw, rngOneHalfLast, cListC1, rngC1after, mC1])

/-- The sample list produced by `gen_metrics_cpu 8 (rngConst 50 0)`. -/
def cListC7 : List ℚ := [0, 0, 0, 0, 0, 0, 0, 0, 0, 0, 0, 0, 0, 0, 0]

/-- The random-source state after the 15 samples of `rngConst 50 0`. -/
def rngC7after : Rng := ⟨fun _ => 50, fun _ => 0, 15, 15⟩

/-- The snapshot produced by `gen_metrics_cpu 8 (rngConst 50 0)`. -/
def mC7 : MetricsCpu := ⟨0, 0, 0, 16⟩

/-- C7 is false as stated: quantification over every `coreCount ≥ 1`
includes `coreCount = 2^31`, where the `u32` multiplication `core_count * 2`
wraps to `0`, so a draw that never takes the spike branch returns
`thread_count = 0 ≠ 2 * 2^31`. -/
theorem c7_counterexample :
    (gen_metrics_cpu (2 ^ 31) (rngConst 50 0)).map (fun p => p.1.thread_count) = some 0 ∧
    (0 : Nat) ≠ 2 * 2 ^ 31 := by
  refine ⟨?_, by norm_num⟩
  norm_num [gen_metrics_cpu, gen_cpu_counts, gen_cpu_sample, genRangeNat, genRangeQ,
    unitDraw, rngConst]

/-- C7 (amended): for every `coreCount` with `1 ≤ C < 2^31` (no `u32`
overflow) and every draw, `gen_metrics_cpu C` returns `thread_count = 2*C`,
`load_1m` the last (15th) of the 15 generated samples, `load_15m` the sum of
all 15 samples, and `load_15m ≥ load_5m ≥ 0`. -/
theorem c7_amended_cpu_invariants :
    ∀ (C : Nat) (rng : Rng) (counts : List ℚ) (r1 : Rng) (m : MetricsCpu) (r' : Rng),
    1 ≤ C → C < 2 ^ 31 →
    gen_cpu_counts C 15 rng = some (counts, r1) →
    gen_metrics_cpu C rng = some (m, r') →
    m.thread_count = 2 * C ∧ counts.length = 15 ∧ counts[14]? = some m.load_1m ∧
      m.load_15m = counts.sum ∧ 0 ≤ m.load_5m ∧ m.load_5m ≤ m.load_15m := by
  intro C rng counts r1 m r' h1 h2 hc hm
  obtain ⟨counts', hc', hlen, h14, h5, h15, htc⟩ := gen_metrics_cpu_inv hm
  rw [hc] at hc'
  simp only [Option.some.injEq, Prod.mk.injEq] at hc'
  obtain ⟨hcc, -⟩ := hc'
  subst hcc
  have hnn := (gen_cpu_counts_inv hc).2
  have hwin := window_sum_bounds hnn
  refine ⟨?_, hlen, h14, h15, ?_, ?_⟩
  · rw [htc, Nat.mod_eq_of_lt (by omega), Nat.mul_comm]
  · rw [h5]; exact hwin.1
  · rw [h5, h15]; exact hwin.2

/-- C7 (amended) witness at `coreCount = 8` and the all-normal, all-zero
draw `rngConst 50 0`. -/
theorem c7_amended_witness :
    mC7.thread_count = 2 * 8 ∧ cListC7.length = 15 ∧ cListC7[14]? = some mC7.load_1m ∧
      mC7.load_15m = cListC7.sum ∧ 0 ≤ mC7.load_5m ∧ mC7.load_5m ≤ mC7.load_15m :=
  c7_amended_cpu_invariants 8 (rngConst 50 0) cListC7 rngC7after mC7 rngC7after
    (by norm_num) (by norm_num)
    (by norm_num [gen_cpu_counts, gen_cpu_sample, genRangeNat, genRangeQ, unitDraw,
      rngConst, cListC7, rngC7after])
    (by norm_num [gen_metrics_cpu, gen_cpu_counts, gen_cpu_sample, genRangeNat, genRangeQ,
      unitDraw, rngConst, cListC7, rngC7after, mC7])

/-- Every sample attempt of `gen_metrics_cpu 0` draws from an empty range
(both `[0.0, 0)` and `[0, 0)` are empty), so the call panics (`none`). -/
lemma gen_cpu_sample_zero (r : Rng) : gen_cpu_sample 0 r = none := by
  unfold gen_cpu_sample
  rw [genRangeNat_eq r (by norm_num)]
  simp only
  split
  · exact genRangeQ_none _ (by norm_num)
  · exact genRangeQ_none _ (by norm_num)

lemma gen_metrics_cpu_zero (rng : Rng) : gen_metrics_cpu 0 rng = none := by
  unfold gen_metrics_cpu gen_cpu_counts
  rw [gen_cpu_sample_zero rng]

/-- C9 is false as stated: `coreCount = 2^31 ≥ 1`, yet a draw that takes the
spike branch samples from `[2^31, (2^31 * 2) mod 2^32) = [2^31, 0)`, an
empty range, and the call panics. -/
theorem c9_counterexample :
    gen_metrics_cpu (2 ^ 31) (rngConst 0 0) = none ∧ 1 ≤ 2 ^ 31 := by
  refine ⟨?_, by norm_num⟩
  norm_num [gen_metrics_cpu, gen_cpu_counts, gen_cpu_sample, genRangeNat, genRangeQ,
    unitDraw, rngConst]

/-- C9 (amended): `gen_metrics_cpu 0` panics for every draw (both sample
ranges are empty), and for every `coreCount` with `1 ≤ C < 2^31` every draw
succeeds — the panic branch is unreachable. For `C ≥ 2^31` the wrapped `u32`
multiplication empties the spike range so totality fails (see the
counterexample). -/
theorem c9_amended_totality :
    (∀ rng : Rng, gen_metrics_cpu 0 rng = none) ∧
    (∀ (C : Nat) (rng : Rng), 1 ≤ C → C < 2 ^ 31 →
      ∃ m r', gen_metrics_cpu C rng = some (m, r')) := by
  constructor
  · exact gen_metrics_cpu_zero
  · intro C rng h1 h2
    obtain ⟨counts, r1, hc⟩ := gen_cpu_counts_isSome h1 h2 15 rng
    have hlen : counts.length = 15 := (gen_cpu_counts_inv hc).1
    have h14 : counts[14]? = some counts[14] :=
      List.getElem?_eq_getElem (by omega)
    have heq : gen_metrics_cpu C rng =
        some ({ load_1m := counts[14],
                load_5m := ((counts.drop 9).take 5).sum,
                load_15m := counts.sum,
                thread_count := (C * 2) % 2 ^ 32 }, r1) := by
      unfold gen_metrics_cpu
      rw [hc]
      simp only
      rw [h14]
    exact ⟨_, _, heq⟩

/-- C9 (amended) witness: the zero-core panic and a successful call at
`coreCount = 8`, both at concrete draws. -/
theorem c9_amended_witness :
    gen_metrics_cpu 0 (rngConst 0 0) = none ∧
    (gen_metrics_cpu 8 (rngConst 50 0)).isSome = true := by
  refine ⟨c9_amended_totality.1 (rngConst 0 0), ?_⟩
  obtain ⟨m, r', h⟩ := c9_amended_totality.2 8 (rngConst 50 0) (by norm_num) (by norm_num)
  rw [h]
  rfl

lemma gen_metrics_mem_inv {T : Nat} {rng : Rng} {m : MetricsMem} {r' : Rng}
    (h : gen_metrics_mem T rng = some (m, r')) :
    T / 2 ≤ m.used_bytes ∧ m.used_bytes < T ∧ m.total_bytes = TOTAL_BYTES := by
  unfold gen_metrics_mem at h
  cases hg : genRangeNat (T / 2) T rng with
  | none => rw [hg] at h; simp at h
  | some p =>
    obtain ⟨u, r1⟩ := p
    rw [hg] at h
    simp only [Option.some.injEq, Prod.mk.injEq] at h
    obtain ⟨hm, -⟩ := h
    have hb := genRangeNat_bounds hg
    rw [← hm]
    exact ⟨hb.1, hb.2, rfl⟩

/-- The snapshot returned by `gen_metrics_mem 2 (rngConst 0 0)`. -/
def memC2 : MetricsMem := ⟨1, 4294967296⟩

/-- The random-source state after one integer draw of `rngConst 0 0`. -/
def rngMemAfter : Rng := ⟨fun _ => 0, fun _ => 0, 1, 0⟩

/-- C2 is false on the code: `gen_metrics_mem` sets the returned
`total_bytes` to the constant `TOTAL_BYTES = 4294967296`, not to the input.
At input `T = 2` (which satisfies `T ≥ 2`) the returned `total_bytes` is
`4294967296 ≠ 2`. -/
theorem c2_counterexample :
    (gen_metrics_mem 2 (rngConst 0 0)).map (fun p => p.1.total_bytes) = some 4294967296 ∧
    (4294967296 : Nat) ≠ 2 ∧ (2 : Nat) ≤ 2 := by
  refine ⟨?_, by norm_num, le_refl 2⟩
  norm_num [gen_metrics_mem, genRangeNat, rngConst, TOTAL_BYTES]

/-- C2 (amended): for every input `T ≥ 2` and every draw,
`gen_metrics_mem T` returns `used_bytes ∈ [T/2, T)` drawn from the input-
derived range, but `total_bytes` is the fixed constant `TOTAL_BYTES`
(`4294967296`), equal to the input only when `T = 4294967296`. -/
theorem c2_amended_mem :
    ∀ (T : Nat) (rng : Rng) (m : MetricsMem) (r' : Rng),
    2 ≤ T →
    gen_metrics_mem T rng = some (m, r') →
    T / 2 ≤ m.used_bytes ∧ m.used_bytes < T ∧ m.total_bytes = TOTAL_BYTES := by
  intro T rng m r' hT h
  exact gen_metrics_mem_inv h

/-- C2 (amended) witness at `T = 2` and the all-zero draw. -/
theorem c2_amended_witness :
    2 / 2 ≤ memC2.used_bytes ∧ memC2.used_bytes < 2 ∧ memC2.total_bytes = TOTAL_BYTES :=
  c2_amended_mem 2 (rngConst 0 0) memC2 rngMemAfter (by norm_num)
    (by norm_num [gen_metrics_mem, genRangeNat, rngConst, memC2, rngMemAfter, TOTAL_BYTES])

/-- The snapshot returned by `gen_metrics_mem TOTAL_BYTES (rngConst 0 0)`. -/
def memC4 : MetricsMem := ⟨2147483648, 4294967296⟩

/-- C4 is false on the code for general `T ≥ 2`: at input `T = 2` the
returned snapshot has `used_bytes = 1` and `total_bytes = 4294967296`, so
`total_bytes / 2 ≤ used_bytes` fails over the returned fields. -/
theorem c4_counterexample :
    (gen_metrics_mem 2 (rngConst 0 0)).map
      (fun p => decide (p.1.total_bytes / 2 ≤ p.1.used_bytes)) = some false ∧
    (2 : Nat) ≤ 2 := by
  refine ⟨?_, le_refl 2⟩
  norm_num [gen_metrics_mem, genRangeNat, rngConst, TOTAL_BYTES]

/-- C4 (amended): for every `T ≥ 2` and every draw the invariant holds with
respect to the input — `T/2 ≤ used_bytes < T` — and over the returned
snapshot's own fields exactly when the input is the constant
`TOTAL_BYTES` (as in every in-program call). -/
theorem c4_amended_invariant :
    ∀ (T : Nat) (rng : Rng) (m : MetricsMem) (r' : Rng),
    2 ≤ T →
    gen_metrics_mem T rng = some (m, r') →
    (T / 2 ≤ m.used_bytes ∧ m.used_bytes < T) ∧
    (T = TOTAL_BYTES → m.total_bytes / 2 ≤ m.used_bytes ∧ m.used_bytes < m.total_bytes) := by
  intro T rng m r' hT h
  obtain ⟨h1, h2, h3⟩ := gen_metrics_mem_inv h
  refine ⟨⟨h1, h2⟩, fun hTt => ?_⟩
  rw [h3, ← hTt]
  exact ⟨h1, h2⟩

/-- C4 (amended) witness at the in-program input `T = TOTAL_BYTES`. -/
theorem c4_amended_witness :
    (TOTAL_BYTES / 2 ≤ memC4.used_bytes ∧ memC4.used_bytes < TOTAL_BYTES) ∧
    (TOTAL_BYTES = TOTAL_BYTES →
      memC4.total_bytes / 2 ≤ memC4.used_bytes ∧ memC4.used_bytes < memC4.total_bytes) :=
  c4_amended_invariant TOTAL_BYTES (rngConst 0 0) memC4 rngMemAfter
    (by norm_num [TOTAL_BYTES])
    (by norm_num [gen_metrics_mem, genRangeNat, rngConst, memC4, rngMemAfter, TOTAL_BYTES])

/-- The random-source state after one integer draw of `rngConst 50 0`. -/
def rngH50After : Rng := ⟨fun _ => 50, fun _ => 0, 1, 0⟩

/-- C5 is false as stated: the draw range `[0, 99)` has 99 values, of which
the 89 values `10..98` map to `true` — a fraction of `89/99 ≈ 89.9%`, not
exactly 90%. -/
theorem c5_counterexample :
    ((Finset.range 99).filter
      (fun d => (gen_health_status (rngConst d 0)).map Prod.fst = some true)).card = 89 ∧
    (89 : ℚ) / 99 ≠ 9 / 10 := by
  exact ⟨by decide, by norm_num⟩

/-- C5 (amended): `gen_health_status` draws from the integer range
`[0, 99)` and returns `true` exactly when the draw is `≥ 10`; 89 of the 99
equally likely draw values map to `true` (probability `89/99`, not exactly
90%). -/
theorem c5_amended_health :
    (∀ (rng : Rng) (d : Nat) (r1 : Rng),
      genRangeNat 0 99 rng = some (d, r1) →
      d < 99 ∧ (gen_health_status rng = some (true, r1) ↔ 10 ≤ d)) ∧
    ((Finset.range 99).filter (fun d => 10 ≤ d)).card = 89 := by
  constructor
  · intro rng d r1 h
    refine ⟨(genRangeNat_bounds h).2, ?_⟩
    unfold gen_health_status
    rw [h]
    simp
  · decide

/-- C5 (amended) witness at the constant-50 draw. -/
theorem c5_amended_witness :
    (50 : Nat) < 99 ∧
      (gen_health_status (rngConst 50 0) = some (true, rngH50After) ↔ 10 ≤ 50) :=
  c5_amended_health.1 (rngConst 50 0) 50 rngH50After
    (by norm_num [genRangeNat, rngConst, rngH50After])

/-- C6: a `GET /healthz` request is routed to `handle_healthz`, which writes
exactly `"HTTP/1.1 200 Ok\r\n\r\n"` when the health draw is `true` and
exactly the empty byte sequence when it is `false`. -/
theorem c6_healthz_response :
    ∀ (jsonEnc : MetricsRoot → String) (enc : ServerState → String)
      (s : ServerState) (rng : Rng) (b : Bool) (r1 : Rng),
    gen_health_status rng = some (b, r1) →
    handle_connection jsonEnc enc ["GET /healthz HTTP/1.1"] s rng = handle_healthz s rng ∧
    handle_healthz s rng = some (if b then "HTTP/1.1 200 Ok\r\n\r\n" else "", s, r1) := by
  intro jsonEnc enc s rng b r1 hb
  have hsp : splitSpace "GET /healthz HTTP/1.1" = ["GET", "/healthz", "HTTP/1.1"] := by decide
  constructor
  · unfold handle_connection
    simp only
    rw [hsp]
    simp
  · unfold handle_healthz
    rw [hb]
    cases b <;> simp

/-- C6 witness: the `true` branch at the constant-50 draw. -/
theorem c6_healthz_witness :
    handle_connection (fun _ => "") (fun _ => "") ["GET /healthz HTTP/1.1"] initState
        (rngConst 50 0) = handle_healthz initState (rngConst 50 0) ∧
    handle_healthz initState (rngConst 50 0) =
      some (if true then "HTTP/1.1 200 Ok\r\n\r\n" else "", initState, rngH50After) :=
  c6_healthz_response (fun _ => "") (fun _ => "") initState (rngConst 50 0) true rngH50After
    (by norm_num [gen_health_status, genRangeNat, rngConst, rngH50After])

/-- C3 is false on the code: on a first line with a single non-`GET` token
the router answers `405 Method Not Allowed`, not `400 Bad Request`; on the
single token `GET` the access `req_split[1]` panics, crashing the process. -/
theorem c3_counterexample :
    (handle_connection (fun _ => "") (fun _ => "") ["POST"] initState
      (rngConst 0 0)).map Prod.fst = some UNSUPPORTED_RESPONSE ∧
    UNSUPPORTED_RESPONSE ≠ BAD_REQUEST_RESPONSE ∧
    handle_connection (fun _ => "") (fun _ => "") ["GET"] initState (rngConst 0 0) = none := by
  have h1 : splitSpace "POST" = ["POST"] := by decide
  have h2 : splitSpace "GET" = ["GET"] := by decide
  refine ⟨?_, by decide, ?_⟩
  · unfold handle_connection
    simp only
    rw [h1]
    simp
  · unfold handle_connection
    simp only
    rw [h2]
    simp

/-- C3 (amended): only the empty request (zero lines read) gets
`400 Bad Request`; a first line that splits into a single token gets
`405 Method Not Allowed` when the token differs from `GET`, and panics
(index out of bounds on `req_split[1]`, crashing the process) when the
token is exactly `GET`. -/
theorem c3_amended_routing :
    ∀ (jsonEnc : MetricsRoot → String) (enc : ServerState → String)
      (s : ServerState) (rng : Rng) (line tok : String),
    splitSpace line = [tok] →
    handle_connection jsonEnc enc [] s rng = some (BAD_REQUEST_RESPONSE, s, rng) ∧
    (tok = "GET" → handle_connection jsonEnc enc [line] s rng = none) ∧
    (tok ≠ "GET" → handle_connection jsonEnc enc [line] s rng =
      some (UNSUPPORTED_RESPONSE, s, rng)) := by
  intro jsonEnc enc s rng line tok hsp
  refine ⟨rfl, ?_, ?_⟩
  · intro ht
    unfold handle_connection
    simp only
    rw [hsp, ht]
    simp
  · intro ht
    unfold handle_connection
    simp only
    rw [hsp]
    simp [ht]

/-- C3 (amended) witness at the single-token line `"POST"`. -/
theorem c3_amended_witness :
    handle_connection (fun _ => "") (fun _ => "") [] initState (rngConst 0 0) =
      some (BAD_REQUEST_RESPONSE, initState, rngConst 0 0) ∧
    ("POST" = "GET" → handle_connection (fun _ => "") (fun _ => "") ["POST"] initState
      (rngConst 0 0) = none) ∧
    ("POST" ≠ "GET" → handle_connection (fun _ => "") (fun _ => "") ["POST"] initState
      (rngConst 0 0) = some (UNSUPPORTED_RESPONSE, initState, rngConst 0 0)) :=
  c3_amended_routing (fun _ => "") (fun _ => "") initState (rngConst 0 0) "POST" "POST"
    (by decide)

/-- The registry contents after a successful `register_prom_metrics`. -/
def fullRegistry : PromRegistry :=
  ⟨[("my_server_instr_health", "server health"),
    ("my_server_instr_cpu_load", "CPU load average"),
    ("my_server_instr_memory_bytes_total", "total memory in bytes"),
    ("my_server_instr_memory_bytes_used", "used memory in bytes")]⟩

/-- C8: registering a metric name that is already registered fails with the
registration-conflict error; the startup registration of the four distinct
instrument names succeeds; and a registration error is fatal — `main`'s
startup propagates it and serving never begins on a half-initialized
registry. -/
theorem c8_registration_conflict :
    (∀ (reg : PromRegistry) (name h1 h2 : String) (reg' : PromRegistry),
      PromRegistry.register reg name h1 = Except.ok reg' →
      PromRegistry.register reg' name h2 = Except.error RegError.registrationConflict) ∧
    main_startup = Except.ok (fullRegistry, initState) ∧
    (∀ e, register_prom_metrics = Except.error e → main_startup = Except.error e) := by
  refine ⟨?_, ?_, ?_⟩
  · intro reg name h1 h2 reg' h
    unfold PromRegistry.register at h ⊢
    split at h
    · simp at h
    · rename_i hmem
      simp only [Except.ok.injEq] at h
      rw [if_pos]
      rw [← h]
      simp
  · rfl
  · intro e h
    unfold main_startup
    rw [h]

/-- C8 witness: a concrete duplicate registration of the name `"a"`. -/
theorem c8_registration_witness :
    PromRegistry.register ⟨[("a", "x")]⟩ "a" "y" = Except.error RegError.registrationConflict :=
  c8_registration_conflict.1 ⟨[]⟩ "a" "x" "y" ⟨[("a", "x")]⟩ rfl

/-- The registry state after `populate_metrics initState (rngConst 50 0)`. -/
def sC10 : ServerState :=
  { healthGauge := 1,
    cpuLoad := [("1m", 0), ("5m", 0), ("15m", 0)],
    memTotal := 4294967296,
    memUsed := 2147483698 }

/-- The random-source state after `populate_metrics` at `rngConst 50 0`
(17 integer draws: health, 15 spike checks, memory; 15 rational draws). -/
def rngC10after : Rng := ⟨fun _ => 50, fun _ => 0, 17, 15⟩

/-- C10: a completed `populate_metrics` call leaves the health gauge at `1`
if the health sample drawn during the call was `true` and at `0` if it was
`false`; every connection-handling operation either leaves the health gauge
unchanged or writes `0` or `1` through `populate_metrics`; and the gauge
starts at `0` — so it only ever holds `0` or `1`. -/
theorem c10_health_gauge :
    (∀ (s : ServerState) (rng : Rng) (b : Bool) (r1 : Rng) (s' : ServerState) (r' : Rng),
      gen_health_status rng = some (b, r1) →
      populate_metrics s rng = some (s', r') →
      s'.healthGauge = if b then 1 else 0) ∧
    (∀ (jsonEnc : MetricsRoot → String) (enc : ServerState → String) (req : List String)
      (s : ServerState) (rng : Rng) (out : String × ServerState × Rng),
      handle_connection jsonEnc enc req s rng = some out →
      out.2.1.healthGauge = s.healthGauge ∨
        out.2.1.healthGauge = 0 ∨ out.2.1.healthGauge = 1) ∧
    initState.healthGauge = 0 := by
  refine ⟨?_, ?_, rfl⟩
  · intro s rng b r1 s' r' hb h
    exact populate_metrics_healthGauge hb h
  · intro jsonEnc enc req s rng out h
    exact handle_connection_healthGauge h

/-- C10 witness: the completed refresh at the constant-50 draw samples a
`true` health flag and leaves the gauge at `1`. -/
theorem c10_health_gauge_witness : sC10.healthGauge = if true then 1 else 0 :=
  c10_health_gauge.1 initState (rngConst 50 0) true rngH50After sC10 rngC10after
    (by norm_num [gen_health_status, genRangeNat, rngConst, rngH50After])
    (by
      norm_num [populate_metrics, gen_health_status, gen_metrics_cpu, gen_cpu_counts,
        gen_cpu_sample, gen_metrics_mem, genRangeNat, genRangeQ, unitDraw, famSet,
        CORE_COUNT, TOTAL_BYTES, rngConst, rngH50After, initState, sC10, rngC10after]
      decide)
